import Mathlib

/-!
# Verification of the Peakmails SDK client (two variants)

A shallow embedding of the repository's two request-dispatch clients:

* the signed, project-scoped variant (`PeakmailsSDK` in the untitled source
  file): constructor validation, origin resolution, SHA-256 CSRF token
  generation, header construction, and transport-error classification;
* the unsigned variant (`IndexJs.PeakmailsSDK` in `index.js`): bearer +
  domain headers only, with the same validate-then-dispatch pattern.

JavaScript values relevant to the client are modelled by `JsVal` (config
fields) and `Json` (payloads and responses); JS truthiness and `typeof`
checks are modelled explicitly.  The HTTP transport (axios) is a parameter:
a function from the constructed request envelope to an outcome, covering a
successful response, an error response, a request with no response, and a
setup failure — the four cases the source's `catch` block distinguishes.
SHA-256 is implemented in full (FIPS 180-4) over byte lists so that token
digests are computable.
-/

namespace Peakmails

/-! ## JavaScript value model -/

/-- A JavaScript value as it can appear in a configuration field:
`undefined` (also: the field was absent), `null`, a string, a number, or
a boolean. -/
inductive JsVal where
  | undefined
  | jsNull
  | str (s : String)
  | num (n : Int)
  | boolean (b : Bool)
deriving DecidableEq

/-- JS truthiness of a `JsVal`: `undefined`, `null`, `""`, `0` and `false`
are falsy, everything else truthy. -/
def JsVal.truthy : JsVal → Bool
  | .undefined => false
  | .jsNull => false
  | .str s => !(s == "")
  | .num n => !(n == 0)
  | .boolean b => b

/-- Models `typeof v === 'string'`. -/
def JsVal.isString : JsVal → Bool
  | .str _ => true
  | _ => false

/-- The string payload of a `JsVal` known (by a preceding `typeof` check)
to be a string; other cases are unreachable where this is used. -/
def JsVal.stringValue : JsVal → String
  | .str s => s
  | _ => ""

/-- A JSON value: payloads sent to and parsed responses received from the
upstream API. -/
inductive Json where
  | null
  | bool (b : Bool)
  | num (n : Int)
  | str (s : String)
  | arr (elems : List Json)
  | obj (fields : List (String × Json))

/-- Property lookup `j.k` on a JSON value: `none` models `undefined`
(also for lookup on a non-object). -/
def Json.getField : Json → String → Option Json
  | .obj fields, k => fields.lookup k
  | _, _ => none

/-- JS truthiness of a `Json` value. -/
def Json.truthy : Json → Bool
  | .null => false
  | .bool b => b
  | .num n => !(n == 0)
  | .str s => !(s == "")
  | .arr _ => true
  | .obj _ => true

/-- Models `typeof v === 'string'` on a `Json` value. -/
def Json.isStr : Json → Bool
  | .str _ => true
  | _ => false

/-- Models `Array.isArray(v)`. -/
def Json.isArray : Json → Bool
  | .arr _ => true
  | _ => false

/-- Models `v.length` for an array value (`0` elsewhere; only used under an
`Array.isArray` guard). -/
def Json.arrayLength : Json → Nat
  | .arr xs => xs.length
  | _ => 0

/-- Truthiness of a possibly-`undefined` value (`!v` on a property lookup). -/
def optTruthy : Option Json → Bool
  | none => false
  | some j => j.truthy

/-- `typeof v === 'string'` on a possibly-`undefined` value
(`typeof undefined` is `'undefined'`). -/
def optIsStr : Option Json → Bool
  | none => false
  | some j => j.isStr

/-- `Array.isArray(v)` on a possibly-`undefined` value. -/
def optIsArray : Option Json → Bool
  | none => false
  | some j => j.isArray

/-- `v.length` on a possibly-`undefined` value (only used under an
`Array.isArray` guard, where it is defined). -/
def optArrayLength : Option Json → Nat
  | none => 0
  | some j => j.arrayLength

/-- Re-wrap a destructured property for inclusion in a request body; the
`none` case is unreachable where this is used (validation has established
the property is present). -/
def optJson : Option Json → Json
  | some j => j
  | none => Json.null

/-- The string payload of a value validated to be a string (used for the
template interpolation of a validated scenario id into a URL). -/
def Json.asString : Json → String
  | .str s => s
  | _ => ""

mutual

/-- JS string conversion as used by template interpolation of
`error.response.data.message`: strings verbatim, numbers and booleans
printed, `null` prints as "null", arrays join their elements with commas
(`null` elements print empty inside an array, as in JS `Array.prototype.join`),
plain objects print as "[object Object]". -/
def Json.jsShow : Json → String
  | .null => "null"
  | .bool b => if b then "true" else "false"
  | .num n => toString n
  | .str s => s
  | .arr xs => String.intercalate "," (Json.jsShowElems xs)
  | .obj _ => "[object Object]"

/-- Array elements under JS `join`: `null` becomes the empty string. -/
def Json.jsShowElems : List Json → List String
  | [] => []
  | Json.null :: js => "" :: Json.jsShowElems js
  | j :: js => Json.jsShow j :: Json.jsShowElems js

end

/-- The template interpolation `${v}` of a possibly-`undefined` value:
`undefined` prints as "undefined". -/
def jsTemplateShow : Option Json → String
  | none => "undefined"
  | some j => j.jsShow

/-! ## SHA-256 (FIPS 180-4) over byte lists

The source computes `crypto.createHash('sha256').update(s).digest('hex')`;
this is that hash, implemented over `List Nat` of byte values with 32-bit
words as `Nat` reduced modulo `2^32`. -/

/-- Reduce to a 32-bit word. -/
def w32 (n : Nat) : Nat := n % 4294967296

/-- Right rotation of a 32-bit word. -/
def rotr32 (x n : Nat) : Nat := w32 ((x >>> n) ||| (x <<< (32 - n)))

/-- Bitwise complement of a 32-bit word. -/
def not32 (x : Nat) : Nat := x ^^^ 4294967295

/-- SHA-256 `Ch` function. -/
def shaCh (x y z : Nat) : Nat := (x &&& y) ^^^ ((not32 x) &&& z)

/-- SHA-256 `Maj` function. -/
def shaMaj (x y z : Nat) : Nat := (x &&& y) ^^^ (x &&& z) ^^^ (y &&& z)

/-- SHA-256 Σ₀. -/
def shaS0 (x : Nat) : Nat := (rotr32 x 2) ^^^ (rotr32 x 13) ^^^ (rotr32 x 22)

/-- SHA-256 Σ₁. -/
def shaS1 (x : Nat) : Nat := (rotr32 x 6) ^^^ (rotr32 x 11) ^^^ (rotr32 x 25)

/-- SHA-256 σ₀. -/
def shaLs0 (x : Nat) : Nat := (rotr32 x 7) ^^^ (rotr32 x 18) ^^^ (x >>> 3)

/-- SHA-256 σ₁. -/
def shaLs1 (x : Nat) : Nat := (rotr32 x 17) ^^^ (rotr32 x 19) ^^^ (x >>> 10)

/-- The 64 SHA-256 round constants (FIPS 180-4 §4.2.2, here written in
decimal; the test-vector theorems below check the implementation). -/
def shaK : Array Nat := #[
  1116352408, 1899447441, 3049323471, 3921009573, 961987163,
  1508970993, 2453635748, 2870763221, 3624381080, 310598401,
  607225278, 1426881987, 1925078388, 2162078206, 2614888103,
  3248222580, 3835390401, 4022224774, 264347078, 604807628,
  770255983, 1249150122, 1555081692, 1996064986, 2554220882,
  2821834349, 2952996808, 3210313671, 3336571891, 3584528711,
  113926993, 338241895, 666307205, 773529912, 1294757372,
  1396182291, 1695183700, 1986661051, 2177026350, 2456956037,
  2730485921, 2820302411, 3259730800, 3345764771, 3516065817,
  3600352804, 4094571909, 275423344, 430227734, 506948616,
  659060556, 883997877, 958139571, 1322822218, 1537002063,
  1747873779, 1955562222, 2024104815, 2227730452, 2361852424,
  2428436474, 2756734187, 3204031479, 3329325298]

/-- The SHA-256 initial hash value (FIPS 180-4 §5.3.3, in decimal). -/
def shaH0 : List Nat :=
  [1779033703, 3144134277, 1013904242, 2773480762,
   1359893119, 2600822924, 528734635, 1541459225]

/-- A `Nat` as `k` big-endian bytes. -/
def beBytes (k n : Nat) : List Nat :=
  (List.range k).map (fun i => (n >>> (8 * (k - 1 - i))) % 256)

/-- A big-endian word from a byte list. -/
def beWord (bs : List Nat) : Nat := bs.foldl (fun acc b => acc * 256 + b) 0

/-- SHA-256 padding: append `0x80`, zeros to 56 mod 64, then the bit length
as 8 big-endian bytes. -/
def shaPad (msg : List Nat) : List Nat :=
  msg ++ [0x80] ++ List.replicate ((119 - msg.length % 64) % 64) 0 ++ beBytes 8 (msg.length * 8)

/-- The sixteen 32-bit words of block `i` of a padded message. -/
def blockWords (padded : List Nat) (i : Nat) : List Nat :=
  (List.range 16).map (fun j => beWord ((padded.drop (64 * i + 4 * j)).take 4))

/-- Extend sixteen message words to the 64-entry message schedule. -/
def shaSchedule (w16 : List Nat) : Array Nat :=
  (List.range 48).foldl
    (fun w t =>
      let i := t + 16
      w.push (w32 (shaLs1 (w.getD (i - 2) 0) + w.getD (i - 7) 0 +
        shaLs0 (w.getD (i - 15) 0) + w.getD (i - 16) 0)))
    w16.toArray

/-- One SHA-256 compression round acting on the working variables. -/
def shaRound (w : Array Nat) (s : Nat × Nat × Nat × Nat × Nat × Nat × Nat × Nat) (t : Nat) :
    Nat × Nat × Nat × Nat × Nat × Nat × Nat × Nat :=
  match s with
  | (a, b, c, d, e, f, g, h) =>
    let t1 := w32 (h + shaS1 e + shaCh e f g + shaK.getD t 0 + w.getD t 0)
    let t2 := w32 (shaS0 a + shaMaj a b c)
    (w32 (t1 + t2), a, b, c, w32 (d + t1), e, f, g)

/-- SHA-256 compression of one block schedule into the running hash. -/
def shaCompress (h : List Nat) (w : Array Nat) : List Nat :=
  match h with
  | [h0, h1, h2, h3, h4, h5, h6, h7] =>
    match (List.range 64).foldl (shaRound w) (h0, h1, h2, h3, h4, h5, h6, h7) with
    | (a, b, c, d, e, f, g, hh) =>
      [w32 (h0 + a), w32 (h1 + b), w32 (h2 + c), w32 (h3 + d),
       w32 (h4 + e), w32 (h5 + f), w32 (h6 + g), w32 (h7 + hh)]
  | _ => h

/-- The eight 32-bit words of the SHA-256 digest of a byte message. -/
def sha256Words (msg : List Nat) : List Nat :=
  let padded := shaPad msg
  (List.range (padded.length / 64)).foldl
    (fun h i => shaCompress h (shaSchedule (blockWords padded i))) shaH0

/-- A hex digit character for a nibble. -/
def hexDigit (n : Nat) : Char :=
  if n < 10 then Char.ofNat (48 + n) else Char.ofNat (87 + n)

/-- A 32-bit word as 8 lowercase hex characters. -/
def wordHex (n : Nat) : String :=
  String.mk ((List.range 8).map (fun i => hexDigit ((n >>> (28 - 4 * i)) &&& 15)))

/-- UTF-8 encoding of a Unicode scalar value. -/
def utf8EncodeChar (c : Nat) : List Nat :=
  if c < 0x80 then [c]
  else if c < 0x800 then
    [0xC0 ||| (c >>> 6), 0x80 ||| (c &&& 0x3F)]
  else if c < 0x10000 then
    [0xE0 ||| (c >>> 12), 0x80 ||| ((c >>> 6) &&& 0x3F), 0x80 ||| (c &&& 0x3F)]
  else
    [0xF0 ||| (c >>> 18), 0x80 ||| ((c >>> 12) &&& 0x3F),
     0x80 ||| ((c >>> 6) &&& 0x3F), 0x80 ||| (c &&& 0x3F)]

/-- The UTF-8 bytes of a string (what `hash.update` consumes for a JS
string argument with the default encoding). -/
def utf8Bytes (s : String) : List Nat :=
  s.toList.flatMap (fun c => utf8EncodeChar c.toNat)

/-- The lowercase hexadecimal SHA-256 digest of a string, as
`crypto.createHash('sha256').update(s).digest('hex')` returns it. -/
def sha256Hex (s : String) : String :=
  String.join ((sha256Words (utf8Bytes s)).map wordHex)

/-! ## Errors, request envelopes and the transport -/

/-- The client's error taxonomy.  Each constructor corresponds to exactly
one `throw new Error(...)` site of the source; the payloads are the data
interpolated into the thrown message (see `SDKError.jsMessage` for the
exact message strings). -/
inductive SDKError where
  | configurationError (msg : String)
  | validationError (msg : String)
  | originUnavailableError
  | upstreamApiError (status : Nat) (message : String)
  | transportError
  | unexpectedClientError (msg : String)
deriving DecidableEq

/-- The exact `Error` message string the source throws for each error. -/
def SDKError.jsMessage : SDKError → String
  | .configurationError m => m
  | .validationError m => m
  | .originUnavailableError => "Origin not found"
  | .upstreamApiError status msg =>
      "Peakmails API Error: " ++ toString status ++ " - " ++ msg
  | .transportError => "Peakmails API Error: No response received from the server"
  | .unexpectedClientError m => "Peakmails SDK Error: " ++ m

/-- The axios call configuration the client constructs: method, full URL,
headers in construction order, and the JSON body. -/
structure RequestEnvelope where
  method : String
  url : String
  headers : List (String × String)
  data : Json

/-- The outcome of one axios call, as the source's `catch` block
distinguishes them: a resolved response (its parsed `data`), a rejected
promise with `error.response` (non-success status and parsed error body),
one with `error.request` but no response, or a setup failure with only a
message. -/
inductive TransportOutcome where
  | success (data : Json)
  | responseError (status : Nat) (data : Json)
  | requestError
  | setupError (msg : String)

/-- The HTTP transport is a parameter of the embedding: what axios does
with a given request envelope. -/
def Transport : Type := RequestEnvelope → TransportOutcome

/-- What one dispatch produced: the settled result and the list of HTTP
requests actually handed to the transport (empty when the dispatch failed
before the network, a singleton otherwise). -/
structure DispatchResult where
  result : Except SDKError Json
  issued : List RequestEnvelope

/-- `error.response.data.message` as interpolated into the upstream error
message (an absent `message` property prints as "undefined"). -/
def upstreamMessage (data : Json) : String :=
  jsTemplateShow (data.getField "message")

/-- The shared `catch` block of both variants: classify the transport
outcome; a resolved response returns `response.data`. -/
def settle (envelope : RequestEnvelope) (outcome : TransportOutcome) : DispatchResult :=
  match outcome with
  | .success respData => { result := .ok respData, issued := [envelope] }
  | .responseError status respData =>
      { result := .error (.upstreamApiError status (upstreamMessage respData)),
        issued := [envelope] }
  | .requestError => { result := .error .transportError, issued := [envelope] }
  | .setupError msg => { result := .error (.unexpectedClientError msg), issued := [envelope] }

/-! ## The browser environment -/

/-- The browser `location` object (only its `origin` matters here). -/
structure LocationObj where
  origin : String

/-- The browser `window` global: its `location` property may be absent or
null (falsy). -/
structure WindowObj where
  location : Option LocationObj

/-- The ambient execution environment: `window` is `none` when
`typeof window === 'undefined'`. -/
structure BrowserEnv where
  window : Option WindowObj

/-! ## The signed, project-scoped client (`PeakmailsSDK`, untitled file) -/

/-- The configuration object passed to a constructor.  Destructuring an
absent property yields `JsVal.undefined`. -/
structure ConfigInput where
  apiKey : JsVal
  domain : JsVal
  projectId : JsVal
  secretKey : JsVal

/-- The signed client's state after construction: the validated string
fields, the fixed base URL, and the secretKey exactly as passed (it is
not validated). -/
structure PeakmailsSDK where
  apiKey : String
  domain : String
  projectId : String
  baseUrl : String
  secretKey : JsVal

/-- The signed variant's constructor: `apiKey`, `domain` and `projectId`
must each be truthy strings (`!v || typeof v !== 'string'` throws),
`secretKey` is stored unchecked. -/
def construct (cfg : ConfigInput) : Except SDKError PeakmailsSDK :=
  if !cfg.apiKey.truthy || !cfg.apiKey.isString then
    .error (.configurationError "Invalid API key")
  else if !cfg.domain.truthy || !cfg.domain.isString then
    .error (.configurationError "Invalid domain")
  else if !cfg.projectId.truthy || !cfg.projectId.isString then
    .error (.configurationError "Invalid project ID")
  else
    .ok { apiKey := cfg.apiKey.stringValue, domain := cfg.domain.stringValue,
          projectId := cfg.projectId.stringValue,
          baseUrl := "https://peakmails.com/api/v1", secretKey := cfg.secretKey }

/-- `getOrigin`: `window.location.origin` when `typeof window !==
'undefined' && window.location` holds, else `null`. -/
def getOrigin (env : BrowserEnv) : Option String :=
  match env.window with
  | some w =>
      match w.location with
      | some loc => some loc.origin
      | none => none
  | none => none

/-- `generateCSRFToken`: the hex SHA-256 digest of the template literal
concatenating `this.apiKey` and the origin. -/
def PeakmailsSDK.generateCSRFToken (sdk : PeakmailsSDK) (origin : String) : String :=
  sha256Hex (sdk.apiKey ++ origin)

/-- The origin the dispatch resolves: the fixed sentinel when
`this.secretKey` is truthy, otherwise `getOrigin()`. -/
def PeakmailsSDK.resolveOrigin (sdk : PeakmailsSDK) (env : BrowserEnv) : Option String :=
  if sdk.secretKey.truthy then some "backend-implementation" else getOrigin env

/-- JS falsiness of the resolved origin (`!origin`): `null` or the empty
string. -/
def jsFalsyOrigin : Option String → Bool
  | none => true
  | some s => s == ""

/-- The six headers and axios call configuration the signed variant's
`request` constructs for a resolved origin. -/
def PeakmailsSDK.envelopeFor (sdk : PeakmailsSDK) (origin method endpoint : String)
    (data : Json) : RequestEnvelope :=
  { method := method, url := sdk.baseUrl ++ endpoint,
    headers := [
      ("Authorization", "Bearer " ++ sdk.apiKey),
      ("Content-Type", "application/json"),
      ("X-Peakmails-Domain", sdk.domain),
      ("X-Peakmails-Project", sdk.projectId),
      ("X-Peakmails-Origin", origin),
      ("X-Peakmails-CSRF-Token", sdk.generateCSRFToken origin)],
    data := data }

/-- The signed variant's `request`: resolve the origin (throwing
`Origin not found` when it is falsy), compute the CSRF token, build the
envelope with its six headers, hand it to the transport, and classify the
outcome. -/
def PeakmailsSDK.request (sdk : PeakmailsSDK) (env : BrowserEnv) (transport : Transport)
    (method endpoint : String) (data : Json) : DispatchResult :=
  match sdk.resolveOrigin env with
  | none => { result := .error .originUnavailableError, issued := [] }
  | some origin =>
    if origin == "" then
      { result := .error .originUnavailableError, issued := [] }
    else
      settle (sdk.envelopeFor origin method endpoint data)
        (transport (sdk.envelopeFor origin method endpoint data))

/-- The validation `!v || typeof v !== 'string'` applied to property `k`
of an argument object (`true` means the operation throws). -/
def invalidStringField (arg : Json) (k : String) : Bool :=
  !optTruthy (arg.getField k) || !optIsStr (arg.getField k)

/-- The validation `!Array.isArray(v) || v.length === 0` applied to
property `k` of an argument object (`true` means the operation throws). -/
def invalidArrayField (arg : Json) (k : String) : Bool :=
  !optIsArray (arg.getField k) || optArrayLength (arg.getField k) == 0

/-- `addContact(contactData)`: `contactData.email` must be a truthy
string; on success POST the full payload to `/add-contact`. -/
def PeakmailsSDK.addContact (sdk : PeakmailsSDK) (env : BrowserEnv) (transport : Transport)
    (contactData : Json) : DispatchResult :=
  if invalidStringField contactData "email" then
    { result := .error (.validationError "Invalid email address"), issued := [] }
  else
    sdk.request env transport "POST" "/add-contact" contactData

/-- `addContactToCategories({email, categories})`: `email` must be a
truthy string and `categories` a non-empty array; on success POST
`{email, categories}` to `/add-contact-to-category`. -/
def PeakmailsSDK.addContactToCategories (sdk : PeakmailsSDK) (env : BrowserEnv)
    (transport : Transport) (arg : Json) : DispatchResult :=
  if invalidStringField arg "email" then
    { result := .error (.validationError "Invalid email address"), issued := [] }
  else if invalidArrayField arg "categories" then
    { result := .error (.validationError "Invalid category IDs"), issued := [] }
  else
    sdk.request env transport "POST" "/add-contact-to-category"
      (Json.obj [("email", optJson (arg.getField "email")),
                 ("categories", optJson (arg.getField "categories"))])

/-- `triggerScenario({scenario, email})`: both must be truthy strings; on
success POST `{scenario, email}` to `/trigger-scenario`. -/
def PeakmailsSDK.triggerScenario (sdk : PeakmailsSDK) (env : BrowserEnv)
    (transport : Transport) (arg : Json) : DispatchResult :=
  if invalidStringField arg "scenario" then
    { result := .error (.validationError "Invalid scenario ID"), issued := [] }
  else if invalidStringField arg "email" then
    { result := .error (.validationError "Invalid email address"), issued := [] }
  else
    sdk.request env transport "POST" "/trigger-scenario"
      (Json.obj [("scenario", optJson (arg.getField "scenario")),
                 ("email", optJson (arg.getField "email"))])

/-- `getScenarioCustomFields({scenario})`: `scenario` must be a truthy
string; on success GET the scenario-custom-fields endpoint with the
scenario id interpolated as the `scenario` query parameter (the `data`
argument is omitted, so it defaults to the empty object). -/
def PeakmailsSDK.getScenarioCustomFields (sdk : PeakmailsSDK) (env : BrowserEnv)
    (transport : Transport) (arg : Json) : DispatchResult :=
  if invalidStringField arg "scenario" then
    { result := .error (.validationError "Invalid scenario ID"), issued := [] }
  else
    sdk.request env transport "GET"
      ("/get-scenario-custom-fields?scenario=" ++ (optJson (arg.getField "scenario")).asString)
      (Json.obj [])

end Peakmails

namespace IndexJs

open Peakmails

/-! ## The unsigned client (`PeakmailsSDK` in `index.js`)

This variant has no projectId, no secretKey, no origin resolution and no
CSRF token: three fixed headers only. -/

/-- The unsigned client's state: validated `apiKey` and `domain` and its
own fixed base URL. -/
structure PeakmailsSDK where
  apiKey : String
  domain : String
  baseUrl : String

/-- The unsigned variant's constructor: destructures only `apiKey` and
`domain` from the configuration object and validates each as a truthy
string. -/
def construct (cfg : ConfigInput) : Except SDKError PeakmailsSDK :=
  if !cfg.apiKey.truthy || !cfg.apiKey.isString then
    .error (.configurationError "Invalid API key")
  else if !cfg.domain.truthy || !cfg.domain.isString then
    .error (.configurationError "Invalid domain")
  else
    .ok { apiKey := cfg.apiKey.stringValue, domain := cfg.domain.stringValue,
          baseUrl := "https://api.peakmails.com/v1" }

/-- The unsigned variant's `request`: build the envelope with its three
headers (bearer authorization, JSON content type, domain), hand it to the
transport, and classify the outcome with the same `catch` block. -/
def PeakmailsSDK.request (sdk : PeakmailsSDK) (transport : Transport)
    (method endpoint : String) (data : Json) : DispatchResult :=
  let envelope : RequestEnvelope :=
    { method := method, url := sdk.baseUrl ++ endpoint,
      headers := [
        ("Authorization", "Bearer " ++ sdk.apiKey),
        ("Content-Type", "application/json"),
        ("X-Peakmails-Domain", sdk.domain)],
      data := data }
  settle envelope (transport envelope)

/-- The unsigned variant's `addContact(contactData)`: same email
validation as the signed variant, then POST `/contacts`. -/
def PeakmailsSDK.addContact (sdk : PeakmailsSDK) (transport : Transport)
    (contactData : Json) : DispatchResult :=
  if invalidStringField contactData "email" then
    { result := .error (.validationError "Invalid email address"), issued := [] }
  else
    sdk.request transport "POST" "/contacts" contactData

/-- The unsigned variant's `getContactDetails(contactId)`: the id must be
a truthy string, then GET `/contacts/` with the id interpolated. -/
def PeakmailsSDK.getContactDetails (sdk : PeakmailsSDK) (transport : Transport)
    (contactId : Json) : DispatchResult :=
  if !contactId.truthy || !contactId.isStr then
    { result := .error (.validationError "Invalid contact ID"), issued := [] }
  else
    sdk.request transport "GET" ("/contacts/" ++ contactId.asString) (Json.obj [])

end IndexJs

namespace Peakmails

/-! ## Derived observations and concrete instances -/

/-- A configuration field is a non-empty string: exactly the values that
pass the constructors' `!v || typeof v !== 'string'` check. -/
def JsVal.isNonEmptyString : JsVal → Bool
  | .str s => !(s == "")
  | _ => false

/-- The `X-Peakmails-Origin` header value of the one issued request, when
exactly one request was issued. -/
def DispatchResult.originHeader (r : DispatchResult) : Option String :=
  match r.issued with
  | [envl] => envl.headers.lookup "X-Peakmails-Origin"
  | _ => none

/-- An environment with no `window` global (Node without a browser shim). -/
def envNone : BrowserEnv := { window := none }

/-- A browser environment whose `window.location.origin` is `o`. -/
def envBrowser (o : String) : BrowserEnv :=
  { window := some { location := some { origin := o } } }

/-- A stub transport that resolves every request with the given body. -/
def transportOk (d : Json) : Transport := fun _ => .success d

/-- A stub transport that rejects every request with an HTTP error
response of the given status and body. -/
def transportHttpError (status : Nat) (d : Json) : Transport :=
  fun _ => .responseError status d

/-- A stub transport where requests go out but no response ever arrives. -/
def transportDown : Transport := fun _ => .requestError

/-- A stub transport that fails during request setup. -/
def transportBroken (m : String) : Transport := fun _ => .setupError m

/-- A backend-configured signed client (non-empty secretKey). -/
def sdkBackend : PeakmailsSDK :=
  { apiKey := "key-1", domain := "example.com", projectId := "proj-1",
    baseUrl := "https://peakmails.com/api/v1", secretKey := .str "sek-1" }

/-- `sdkBackend` with a different apiKey (for the token-sample theorems). -/
def sdkKey2 : PeakmailsSDK :=
  { apiKey := "key-2", domain := "example.com", projectId := "proj-1",
    baseUrl := "https://peakmails.com/api/v1", secretKey := .str "sek-1" }

/-- A signed client whose apiKey is `"a"` (for the concatenation-collision
theorems). -/
def sdkKeyA : PeakmailsSDK :=
  { apiKey := "a", domain := "example.com", projectId := "proj-1",
    baseUrl := "https://peakmails.com/api/v1", secretKey := .str "sek-1" }

/-- A signed client whose apiKey is `"ab"` (for the concatenation-collision
theorems). -/
def sdkKeyAB : PeakmailsSDK :=
  { apiKey := "ab", domain := "example.com", projectId := "proj-1",
    baseUrl := "https://peakmails.com/api/v1", secretKey := .str "sek-1" }

/-- A signed client constructed without a secretKey. -/
def sdkNoSecret : PeakmailsSDK :=
  { apiKey := "key-1", domain := "example.com", projectId := "proj-1",
    baseUrl := "https://peakmails.com/api/v1", secretKey := .undefined }

/-- A signed client whose secretKey was supplied as the empty string. -/
def sdkEmptySecret : PeakmailsSDK :=
  { apiKey := "key-1", domain := "example.com", projectId := "proj-1",
    baseUrl := "https://peakmails.com/api/v1", secretKey := .str "" }

/-- A configuration supplying the empty string as secretKey. -/
def cfgEmptySecret : ConfigInput :=
  { apiKey := .str "key-1", domain := .str "example.com",
    projectId := .str "proj-1", secretKey := .str "" }

/-- A fully valid configuration with a number as the (unvalidated)
secretKey. -/
def cfgFull : ConfigInput :=
  { apiKey := .str "key-1", domain := .str "example.com",
    projectId := .str "proj-1", secretKey := .num 3 }

/-- An unsigned client instance. -/
def sdkUnsigned : IndexJs.PeakmailsSDK :=
  { apiKey := "key-1", domain := "example.com",
    baseUrl := "https://api.peakmails.com/v1" }

/-- The spec's scenario-trigger argument `{scenario:"s1", email:"a@b.com"}`. -/
def argTrigger : Json :=
  Json.obj [("scenario", Json.str "s1"), ("email", Json.str "a@b.com")]

/-- The spec's contact argument `{email:"a@b.com"}`. -/
def argEmail : Json := Json.obj [("email", Json.str "a@b.com")]

/-- The spec's rejected category assignment
`{email:"a@b.com", categories:[]}`. -/
def argEmptyCats : Json :=
  Json.obj [("email", Json.str "a@b.com"), ("categories", Json.arr [])]

/-- A scenario-custom-fields argument `{scenario:"s1"}`. -/
def argScenario : Json := Json.obj [("scenario", Json.str "s1")]

/-- The spec's stub error body `{message:"boom"}`. -/
def respBoom : Json := Json.obj [("message", Json.str "boom")]

/-- The spec's stub success body `{id:"c1"}`. -/
def respContact : Json := Json.obj [("id", Json.str "c1")]

/-! ## Helper lemmas -/

/-- `settle` always records exactly the one envelope it was given. -/
theorem settle_issued (envelope : RequestEnvelope) (outcome : TransportOutcome) :
    (settle envelope outcome).issued = [envelope] := by
  cases outcome <;> rfl

/-- When the origin resolves to a truthy string, `request` is the settled
transport outcome on the constructed envelope. -/
theorem request_of_resolve (sdk : PeakmailsSDK) (env : BrowserEnv) (transport : Transport)
    (m e : String) (d : Json) (origin : String)
    (h : sdk.resolveOrigin env = some origin) (hne : (origin == "") = false) :
    sdk.request env transport m e d =
      settle (sdk.envelopeFor origin m e d) (transport (sdk.envelopeFor origin m e d)) := by
  unfold PeakmailsSDK.request
  rw [h]
  simp [hne]

/-- When the resolved origin is falsy, `request` fails before the network. -/
theorem request_of_falsy (sdk : PeakmailsSDK) (env : BrowserEnv) (transport : Transport)
    (m e : String) (d : Json)
    (h : jsFalsyOrigin (sdk.resolveOrigin env) = true) :
    sdk.request env transport m e d =
      { result := .error .originUnavailableError, issued := [] } := by
  unfold PeakmailsSDK.request
  cases ho : sdk.resolveOrigin env with
  | none => rfl
  | some o =>
    rw [ho] at h
    simp only [jsFalsyOrigin] at h
    simp [h]

/-- An issued envelope determines a successfully resolved, truthy origin,
and is the envelope `request` constructs for it. -/
theorem request_issued_inv (sdk : PeakmailsSDK) (env : BrowserEnv) (transport : Transport)
    (m e : String) (d : Json) (envl : RequestEnvelope)
    (h : (sdk.request env transport m e d).issued = [envl]) :
    ∃ origin, sdk.resolveOrigin env = some origin ∧ (origin == "") = false ∧
      envl = sdk.envelopeFor origin m e d := by
  cases ho : sdk.resolveOrigin env with
  | none =>
    rw [request_of_falsy sdk env transport m e d (by simp [ho, jsFalsyOrigin])] at h
    exact absurd h (by simp)
  | some o =>
    by_cases hne : (o == "") = true
    · rw [request_of_falsy sdk env transport m e d (by simp [ho, jsFalsyOrigin, hne])] at h
      exact absurd h (by simp)
    · refine ⟨o, rfl, by simpa using hne, ?_⟩
      rw [request_of_resolve sdk env transport m e d o ho (by simpa using hne)] at h
      rw [settle_issued] at h
      exact (List.cons.injEq _ _ _ _ ▸ h).1.symm

/-- When some request was issued, the origin had resolved to a truthy
string. -/
theorem request_issued_ne_inv (sdk : PeakmailsSDK) (env : BrowserEnv) (transport : Transport)
    (m e : String) (d : Json)
    (h : (sdk.request env transport m e d).issued ≠ []) :
    ∃ origin, sdk.resolveOrigin env = some origin ∧ (origin == "") = false := by
  cases ho : sdk.resolveOrigin env with
  | none =>
    rw [request_of_falsy sdk env transport m e d (by simp [ho, jsFalsyOrigin])] at h
    exact absurd rfl h
  | some o =>
    by_cases hne : (o == "") = true
    · rw [request_of_falsy sdk env transport m e d (by simp [ho, jsFalsyOrigin, hne])] at h
      exact absurd rfl h
    · exact ⟨o, rfl, by simpa using hne⟩

/-- The constructors' guard, in terms of `isNonEmptyString`. -/
theorem JsVal.guard_eq (v : JsVal) :
    (!v.truthy || !v.isString) = !v.isNonEmptyString := by
  cases v <;> simp [JsVal.truthy, JsVal.isString, JsVal.isNonEmptyString]

/-- `settle` exposes the issued envelope's origin header. -/
theorem settle_originHeader (envelope : RequestEnvelope) (outcome : TransportOutcome) :
    (settle envelope outcome).originHeader = envelope.headers.lookup "X-Peakmails-Origin" := by
  cases outcome <;> rfl

/-- The envelope the signed dispatch builds carries the resolved origin in
its `X-Peakmails-Origin` header. -/
theorem envelopeFor_originHeader (sdk : PeakmailsSDK) (origin m e : String) (d : Json) :
    (sdk.envelopeFor origin m e d).headers.lookup "X-Peakmails-Origin" = some origin := rfl

/-! ## Claim C4 — constructor validation -/

set_option linter.unreachableTactic false in
set_option linter.unusedTactic false in
/-- Claim C4: construction fails with a configuration error exactly when a
required field (apiKey, domain, and in the signed variant projectId) is
missing or not a non-empty string, and succeeds whenever all required
fields are non-empty strings, regardless of the optional fields (the
signed variant never validates secretKey; the unsigned variant
destructures only apiKey and domain). -/
theorem construct_validates_config (cfg : ConfigInput) :
    ((∃ sdk, construct cfg = .ok sdk) ↔
       (cfg.apiKey.isNonEmptyString = true ∧ cfg.domain.isNonEmptyString = true ∧
        cfg.projectId.isNonEmptyString = true))
  ∧ (∀ err, construct cfg = .error err → ∃ m, err = SDKError.configurationError m)
  ∧ ((∃ sdk, IndexJs.construct cfg = .ok sdk) ↔
       (cfg.apiKey.isNonEmptyString = true ∧ cfg.domain.isNonEmptyString = true))
  ∧ (∀ err, IndexJs.construct cfg = .error err → ∃ m, err = SDKError.configurationError m) := by
  unfold construct IndexJs.construct
  rw [JsVal.guard_eq cfg.apiKey, JsVal.guard_eq cfg.domain, JsVal.guard_eq cfg.projectId]
  cases cfg.apiKey.isNonEmptyString <;> cases cfg.domain.isNonEmptyString <;>
    cases cfg.projectId.isNonEmptyString <;> simp <;>
      exact fun err h => ⟨_, h.symm⟩

/-- Witness for C4: the fully valid configuration (with a non-string
secretKey) constructs, and a configuration missing its apiKey fails with a
configuration error. -/
theorem construct_validates_config_witness :
    (∃ sdk, construct cfgFull = .ok sdk)
  ∧ (∃ m, SDKError.configurationError "Invalid API key" = SDKError.configurationError m) :=
  ⟨(construct_validates_config cfgFull).1.mpr ⟨by decide, by decide, by decide⟩,
   (construct_validates_config
      { apiKey := .undefined, domain := .str "example.com",
        projectId := .str "proj-1", secretKey := .undefined }).2.1 _ rfl⟩

/-! ## Claim C5 — input validation precedes the network -/

/-- Claim C5: each public operation of the signed client rejects a missing
or invalid required argument synchronously with the corresponding
validation error and issues no HTTP request. -/
theorem ops_validate_before_request (sdk : PeakmailsSDK) (env : BrowserEnv)
    (transport : Transport) (arg : Json) :
    (invalidStringField arg "email" = true →
       sdk.addContact env transport arg =
         { result := .error (.validationError "Invalid email address"), issued := [] })
  ∧ (invalidStringField arg "email" = true →
       sdk.addContactToCategories env transport arg =
         { result := .error (.validationError "Invalid email address"), issued := [] })
  ∧ (invalidStringField arg "email" = false → invalidArrayField arg "categories" = true →
       sdk.addContactToCategories env transport arg =
         { result := .error (.validationError "Invalid category IDs"), issued := [] })
  ∧ (invalidStringField arg "scenario" = true →
       sdk.triggerScenario env transport arg =
         { result := .error (.validationError "Invalid scenario ID"), issued := [] })
  ∧ (invalidStringField arg "scenario" = false → invalidStringField arg "email" = true →
       sdk.triggerScenario env transport arg =
         { result := .error (.validationError "Invalid email address"), issued := [] })
  ∧ (invalidStringField arg "scenario" = true →
       sdk.getScenarioCustomFields env transport arg =
         { result := .error (.validationError "Invalid scenario ID"), issued := [] }) := by
  refine ⟨?_, ?_, ?_, ?_, ?_, ?_⟩
  · intro h; simp [PeakmailsSDK.addContact, h]
  · intro h; simp [PeakmailsSDK.addContactToCategories, h]
  · intro h1 h2; simp [PeakmailsSDK.addContactToCategories, h1, h2]
  · intro h; simp [PeakmailsSDK.triggerScenario, h]
  · intro h1 h2; simp [PeakmailsSDK.triggerScenario, h1, h2]
  · intro h; simp [PeakmailsSDK.getScenarioCustomFields, h]

/-- Witness for C5: `addContact({})` fails with the email validation error
and no issued request, and `addContactToCategories` with an empty category
list fails with the category validation error and no issued request. -/
theorem ops_validate_before_request_witness :
    sdkBackend.addContact envNone (transportOk respContact) (Json.obj []) =
      { result := .error (.validationError "Invalid email address"), issued := [] }
  ∧ sdkBackend.addContactToCategories envNone (transportOk respContact) argEmptyCats =
      { result := .error (.validationError "Invalid category IDs"), issued := [] } :=
  ⟨(ops_validate_before_request sdkBackend envNone (transportOk respContact) (Json.obj [])).1 rfl,
   (ops_validate_before_request sdkBackend envNone (transportOk respContact) argEmptyCats).2.2.1
     rfl rfl⟩

/-! ## Claim C10 — validation takes priority over origin resolution -/

/-- Claim C10: with no secretKey and no browser environment, a dispatch
itself would fail with the origin error, yet every public operation, under
every one of its invalid-required-argument patterns — including a second
argument failing after a valid first (valid email with invalid categories,
valid scenario with invalid email) — fails with the validation error,
never the origin error. -/
theorem validation_takes_priority_over_origin (sdk : PeakmailsSDK) (transport : Transport)
    (arg : Json) (m e : String) (d : Json)
    (hsk : sdk.secretKey.truthy = false) :
    ((sdk.request envNone transport m e d).result = .error .originUnavailableError)
  ∧ (invalidStringField arg "email" = true →
       (sdk.addContact envNone transport arg).result =
           .error (.validationError "Invalid email address")
       ∧ (sdk.addContact envNone transport arg).result ≠ .error .originUnavailableError)
  ∧ (invalidStringField arg "email" = true →
       (sdk.addContactToCategories envNone transport arg).result =
           .error (.validationError "Invalid email address")
       ∧ (sdk.addContactToCategories envNone transport arg).result ≠
           .error .originUnavailableError)
  ∧ (invalidStringField arg "email" = false → invalidArrayField arg "categories" = true →
       (sdk.addContactToCategories envNone transport arg).result =
           .error (.validationError "Invalid category IDs")
       ∧ (sdk.addContactToCategories envNone transport arg).result ≠
           .error .originUnavailableError)
  ∧ (invalidStringField arg "scenario" = true →
       (sdk.triggerScenario envNone transport arg).result =
           .error (.validationError "Invalid scenario ID")
       ∧ (sdk.triggerScenario envNone transport arg).result ≠
           .error .originUnavailableError)
  ∧ (invalidStringField arg "scenario" = false → invalidStringField arg "email" = true →
       (sdk.triggerScenario envNone transport arg).result =
           .error (.validationError "Invalid email address")
       ∧ (sdk.triggerScenario envNone transport arg).result ≠
           .error .originUnavailableError)
  ∧ (invalidStringField arg "scenario" = true →
       (sdk.getScenarioCustomFields envNone transport arg).result =
           .error (.validationError "Invalid scenario ID")
       ∧ (sdk.getScenarioCustomFields envNone transport arg).result ≠
           .error .originUnavailableError) := by
  have hfalsy : jsFalsyOrigin (sdk.resolveOrigin envNone) = true := by
    simp [PeakmailsSDK.resolveOrigin, hsk, getOrigin, envNone, jsFalsyOrigin]
  refine ⟨?_, ?_, ?_, ?_, ?_, ?_, ?_⟩
  · rw [request_of_falsy sdk envNone transport m e d hfalsy]
  · intro h; simp [PeakmailsSDK.addContact, h]
  · intro h; simp [PeakmailsSDK.addContactToCategories, h]
  · intro h1 h2; simp [PeakmailsSDK.addContactToCategories, h1, h2]
  · intro h; simp [PeakmailsSDK.triggerScenario, h]
  · intro h1 h2; simp [PeakmailsSDK.triggerScenario, h1, h2]
  · intro h; simp [PeakmailsSDK.getScenarioCustomFields, h]

/-- Witness for C10: the secretKey-less client in a windowless environment
rejects `addContact({})`, `addContactToCategories` with a valid email but
empty categories, and `triggerScenario` with a valid scenario but missing
email, each with the validation error and never the origin error. -/
theorem validation_takes_priority_over_origin_witness :
    ((sdkNoSecret.addContact envNone transportDown (Json.obj [])).result =
        .error (.validationError "Invalid email address")
     ∧ (sdkNoSecret.addContact envNone transportDown (Json.obj [])).result ≠
        .error .originUnavailableError)
  ∧ ((sdkNoSecret.addContactToCategories envNone transportDown argEmptyCats).result =
        .error (.validationError "Invalid category IDs")
     ∧ (sdkNoSecret.addContactToCategories envNone transportDown argEmptyCats).result ≠
        .error .originUnavailableError)
  ∧ ((sdkNoSecret.triggerScenario envNone transportDown argScenario).result =
        .error (.validationError "Invalid email address")
     ∧ (sdkNoSecret.triggerScenario envNone transportDown argScenario).result ≠
        .error .originUnavailableError) :=
  ⟨(validation_takes_priority_over_origin sdkNoSecret transportDown (Json.obj [])
      "POST" "/add-contact" Json.null rfl).2.1 rfl,
   (validation_takes_priority_over_origin sdkNoSecret transportDown argEmptyCats
      "POST" "/add-contact" Json.null rfl).2.2.2.1 rfl rfl,
   (validation_takes_priority_over_origin sdkNoSecret transportDown argScenario
      "POST" "/add-contact" Json.null rfl).2.2.2.2.2.1 rfl rfl⟩

/-! ## Claim C1 — origin resolution in the signed client -/

/-- Counterexample for C1 as stated: a secretKey *was* supplied at
construction — the empty string, which construction accepts — yet in a
non-browser environment the dispatch fails with the origin error and
issues no request, instead of resolving the sentinel origin: the code
tests the secretKey's truthiness, not its presence. -/
theorem request_sentinel_origin_cex :
    construct cfgEmptySecret = .ok sdkEmptySecret
  ∧ cfgEmptySecret.secretKey ≠ JsVal.undefined
  ∧ (sdkEmptySecret.request envNone (transportOk respContact) "POST" "/add-contact"
       argEmail).result = .error .originUnavailableError
  ∧ (sdkEmptySecret.request envNone (transportOk respContact) "POST" "/add-contact"
       argEmail).issued = [] :=
  ⟨rfl, by decide, rfl, rfl⟩

/-- Claim C1 (amended): for every dispatch, if a *truthy* (non-empty)
secretKey was supplied at construction the resolved origin — observed in
the issued request's `X-Peakmails-Origin` header — is the fixed sentinel
`"backend-implementation"` regardless of the environment; otherwise, if a
browser-style location object is present and its origin string is
non-empty, that string is used; and if neither yields a truthy value, the
operation fails with the origin-unavailable error before any HTTP request
is issued. -/
theorem request_resolves_origin (sdk : PeakmailsSDK) (env : BrowserEnv) (transport : Transport)
    (m e : String) (d : Json) :
    (sdk.secretKey.truthy = true →
       (sdk.request env transport m e d).originHeader = some "backend-implementation")
  ∧ (∀ s, sdk.secretKey.truthy = false → getOrigin env = some s → (s == "") = false →
       (sdk.request env transport m e d).originHeader = some s)
  ∧ (sdk.secretKey.truthy = false → jsFalsyOrigin (getOrigin env) = true →
       (sdk.request env transport m e d).result = .error .originUnavailableError
       ∧ (sdk.request env transport m e d).issued = []) := by
  refine ⟨?_, ?_, ?_⟩
  · intro h
    have ho : sdk.resolveOrigin env = some "backend-implementation" := by
      simp [PeakmailsSDK.resolveOrigin, h]
    rw [request_of_resolve sdk env transport m e d _ ho rfl, settle_originHeader,
      envelopeFor_originHeader]
  · intro s hsk hloc hne
    have ho : sdk.resolveOrigin env = some s := by
      simp [PeakmailsSDK.resolveOrigin, hsk, hloc]
    rw [request_of_resolve sdk env transport m e d _ ho hne, settle_originHeader,
      envelopeFor_originHeader]
  · intro hsk hfalsy
    have ho : jsFalsyOrigin (sdk.resolveOrigin env) = true := by
      simpa [PeakmailsSDK.resolveOrigin, hsk] using hfalsy
    rw [request_of_falsy sdk env transport m e d ho]
    exact ⟨rfl, rfl⟩

/-- Witness for C1: a backend client (truthy secretKey) dispatches with
the sentinel origin header even with no window; a browser client with a
truthy page origin dispatches with that origin; a secretKey-less client in
a windowless environment fails with the origin error and issues nothing. -/
theorem request_resolves_origin_witness :
    (sdkBackend.request envNone (transportOk respContact) "POST" "/add-contact"
        argEmail).originHeader = some "backend-implementation"
  ∧ (sdkNoSecret.request (envBrowser "https://app.example") (transportOk respContact)
        "POST" "/add-contact" argEmail).originHeader = some "https://app.example"
  ∧ (sdkNoSecret.request envNone (transportOk respContact) "POST" "/add-contact"
        argEmail).result = .error .originUnavailableError :=
  ⟨(request_resolves_origin sdkBackend envNone (transportOk respContact) "POST"
      "/add-contact" argEmail).1 rfl,
   (request_resolves_origin sdkNoSecret (envBrowser "https://app.example")
      (transportOk respContact) "POST" "/add-contact" argEmail).2.1
      "https://app.example" rfl rfl rfl,
   ((request_resolves_origin sdkNoSecret envNone (transportOk respContact) "POST"
      "/add-contact" argEmail).2.2 rfl rfl).1⟩

/-! ## Claim C3 — failure classification in dispatch -/

/-- Claim C3: every transport failure of an issued request is re-raised as
exactly one classified error — an error response as the upstream error
carrying its status and the upstream body's message, an unanswered request
as the transport error, and any other failure as the unexpected-client
error wrapping the original message; in particular the spec's stub
(HTTP 500, body message "boom") makes `triggerScenario` fail with the
upstream error carrying 500 and "boom". -/
theorem request_classifies_failures (sdk : PeakmailsSDK) (env : BrowserEnv) (m e : String)
    (d : Json) (status : Nat) (respData : Json) (msg : String) :
    ((sdk.request env (transportHttpError status respData) m e d).issued ≠ [] →
       (sdk.request env (transportHttpError status respData) m e d).result =
         .error (.upstreamApiError status (upstreamMessage respData)))
  ∧ ((sdk.request env transportDown m e d).issued ≠ [] →
       (sdk.request env transportDown m e d).result = .error .transportError)
  ∧ ((sdk.request env (transportBroken msg) m e d).issued ≠ [] →
       (sdk.request env (transportBroken msg) m e d).result =
         .error (.unexpectedClientError msg))
  ∧ (sdk.secretKey.truthy = true →
       (sdk.triggerScenario env (transportHttpError 500 respBoom) argTrigger).result =
         .error (.upstreamApiError 500 "boom")) := by
  refine ⟨?_, ?_, ?_, ?_⟩
  · intro h
    obtain ⟨o, ho, hne⟩ := request_issued_ne_inv sdk env _ m e d h
    rw [request_of_resolve sdk env _ m e d o ho hne]; rfl
  · intro h
    obtain ⟨o, ho, hne⟩ := request_issued_ne_inv sdk env _ m e d h
    rw [request_of_resolve sdk env _ m e d o ho hne]; rfl
  · intro h
    obtain ⟨o, ho, hne⟩ := request_issued_ne_inv sdk env _ m e d h
    rw [request_of_resolve sdk env _ m e d o ho hne]; rfl
  · intro h
    have ho : sdk.resolveOrigin env = some "backend-implementation" := by
      simp [PeakmailsSDK.resolveOrigin, h]
    have h1 : sdk.triggerScenario env (transportHttpError 500 respBoom) argTrigger =
        sdk.request env (transportHttpError 500 respBoom) "POST" "/trigger-scenario"
          (Json.obj [("scenario", Json.str "s1"), ("email", Json.str "a@b.com")]) := rfl
    rw [h1, request_of_resolve sdk env _ _ _ _ _ ho rfl]
    rfl

/-- Witness for C3: with a backend client, the spec's stub transports
produce exactly the classified errors — and the `triggerScenario` stub
example produces the upstream error with status 500 and message "boom". -/
theorem request_classifies_failures_witness :
    (sdkBackend.request envNone (transportHttpError 500 respBoom) "POST" "/x" Json.null).result
        = .error (.upstreamApiError 500 "boom")
  ∧ (sdkBackend.request envNone transportDown "POST" "/x" Json.null).result
        = .error .transportError
  ∧ (sdkBackend.request envNone (transportBroken "socket hang up") "POST" "/x"
        Json.null).result = .error (.unexpectedClientError "socket hang up")
  ∧ (sdkBackend.triggerScenario envNone (transportHttpError 500 respBoom) argTrigger).result
        = .error (.upstreamApiError 500 "boom") :=
  ⟨(request_classifies_failures sdkBackend envNone "POST" "/x" Json.null 500 respBoom
      "socket hang up").1
      (by rw [request_of_resolve sdkBackend envNone _ "POST" "/x" Json.null
            "backend-implementation" rfl rfl, settle_issued]; exact List.cons_ne_nil _ _),
   (request_classifies_failures sdkBackend envNone "POST" "/x" Json.null 500 respBoom
      "socket hang up").2.1
      (by rw [request_of_resolve sdkBackend envNone _ "POST" "/x" Json.null
            "backend-implementation" rfl rfl, settle_issued]; exact List.cons_ne_nil _ _),
   (request_classifies_failures sdkBackend envNone "POST" "/x" Json.null 500 respBoom
      "socket hang up").2.2.1
      (by rw [request_of_resolve sdkBackend envNone _ "POST" "/x" Json.null
            "backend-implementation" rfl rfl, settle_issued]; exact List.cons_ne_nil _ _),
   (request_classifies_failures sdkBackend envNone "POST" "/x" Json.null 500 respBoom
      "socket hang up").2.2.2 rfl⟩

/-! ## Claim C6 — success results are the upstream body, verbatim -/

/-- Claim C6: whenever the transport resolves with a parsed JSON body,
the dispatch — and every public operation, on valid arguments — resolves
to exactly that body, unchanged. -/
theorem ops_return_body_verbatim (sdk : PeakmailsSDK) (env : BrowserEnv) (arg : Json)
    (respData : Json) (m e : String) (d : Json) (origin : String)
    (ho : sdk.resolveOrigin env = some origin) (hne : (origin == "") = false) :
    ((sdk.request env (transportOk respData) m e d).result = .ok respData)
  ∧ (invalidStringField arg "email" = false →
       (sdk.addContact env (transportOk respData) arg).result = .ok respData)
  ∧ (invalidStringField arg "email" = false → invalidArrayField arg "categories" = false →
       (sdk.addContactToCategories env (transportOk respData) arg).result = .ok respData)
  ∧ (invalidStringField arg "scenario" = false → invalidStringField arg "email" = false →
       (sdk.triggerScenario env (transportOk respData) arg).result = .ok respData)
  ∧ (invalidStringField arg "scenario" = false →
       (sdk.getScenarioCustomFields env (transportOk respData) arg).result = .ok respData) := by
  have hreq : ∀ (m2 e2 : String) (d2 : Json),
      (sdk.request env (transportOk respData) m2 e2 d2).result = .ok respData := by
    intro m2 e2 d2
    rw [request_of_resolve sdk env _ m2 e2 d2 origin ho hne]; rfl
  refine ⟨hreq m e d, ?_, ?_, ?_, ?_⟩
  · intro h; simp [PeakmailsSDK.addContact, h, hreq]
  · intro h1 h2; simp [PeakmailsSDK.addContactToCategories, h1, h2, hreq]
  · intro h1 h2; simp [PeakmailsSDK.triggerScenario, h1, h2, hreq]
  · intro h; simp [PeakmailsSDK.getScenarioCustomFields, h, hreq]

/-- Witness for C6: the spec's stub — HTTP 200 with body `{id:"c1"}` —
makes `addContact({email:"a@b.com"})` resolve to exactly `{id:"c1"}`. -/
theorem ops_return_body_verbatim_witness :
    (sdkBackend.addContact envNone (transportOk respContact) argEmail).result =
      .ok respContact :=
  (ops_return_body_verbatim sdkBackend envNone argEmail respContact "POST" "/add-contact"
    Json.null "backend-implementation" rfl rfl).2.1 rfl

/-! ## Claim C7 — the signed request's headers -/

/-- Claim C7: every issued request of the signed client carries exactly
the bearer authorization built from the apiKey, the JSON content type, the
domain and projectId scoping headers, the resolved origin, and the CSRF
token computed from the apiKey and that origin — and its method, URL
(base URL ++ endpoint) and body are the dispatched ones. -/
theorem request_headers_complete (sdk : PeakmailsSDK) (env : BrowserEnv)
    (transport : Transport) (m e : String) (d : Json) (envl : RequestEnvelope)
    (h : (sdk.request env transport m e d).issued = [envl]) :
    ∃ origin, sdk.resolveOrigin env = some origin ∧ (origin == "") = false ∧
      envl.method = m ∧ envl.url = sdk.baseUrl ++ e ∧ envl.data = d ∧
      envl.headers = [
        ("Authorization", "Bearer " ++ sdk.apiKey),
        ("Content-Type", "application/json"),
        ("X-Peakmails-Domain", sdk.domain),
        ("X-Peakmails-Project", sdk.projectId),
        ("X-Peakmails-Origin", origin),
        ("X-Peakmails-CSRF-Token", sdk.generateCSRFToken origin)] := by
  obtain ⟨origin, ho, hne, heq⟩ := request_issued_inv sdk env transport m e d envl h
  exact ⟨origin, ho, hne, by rw [heq]; rfl, by rw [heq]; rfl, by rw [heq]; rfl,
    by rw [heq]; rfl⟩

/-- Witness for C7: the backend client's dispatched envelope carries all
six headers with the configured values, the sentinel origin, and its
token. -/
theorem request_headers_complete_witness :
    ∃ origin, sdkBackend.resolveOrigin envNone = some origin ∧ (origin == "") = false ∧
      (sdkBackend.envelopeFor "backend-implementation" "POST" "/add-contact" argEmail).method
          = "POST" ∧
      (sdkBackend.envelopeFor "backend-implementation" "POST" "/add-contact" argEmail).url
          = sdkBackend.baseUrl ++ "/add-contact" ∧
      (sdkBackend.envelopeFor "backend-implementation" "POST" "/add-contact" argEmail).data
          = argEmail ∧
      (sdkBackend.envelopeFor "backend-implementation" "POST" "/add-contact" argEmail).headers
          = [
        ("Authorization", "Bearer " ++ sdkBackend.apiKey),
        ("Content-Type", "application/json"),
        ("X-Peakmails-Domain", sdkBackend.domain),
        ("X-Peakmails-Project", sdkBackend.projectId),
        ("X-Peakmails-Origin", origin),
        ("X-Peakmails-CSRF-Token", sdkBackend.generateCSRFToken origin)] :=
  request_headers_complete sdkBackend envNone (transportOk respContact) "POST"
    "/add-contact" argEmail
    (sdkBackend.envelopeFor "backend-implementation" "POST" "/add-contact" argEmail)
    (by rw [request_of_resolve sdkBackend envNone _ "POST" "/add-contact" argEmail
          "backend-implementation" rfl rfl, settle_issued])

/-! ## Claim C8 — getScenarioCustomFields builds a GET with a query param -/

/-- Claim C8: for a non-empty string scenario id, `getScenarioCustomFields`
passes validation and issues a GET whose URL appends the scenario id
directly as the value of the `scenario` query parameter; an argument whose
scenario id fails validation is rejected with the validation error and no
request. -/
theorem getScenarioCustomFields_builds_query (sdk : PeakmailsSDK) (env : BrowserEnv)
    (transport : Transport) (arg : Json) (s : String)
    (hs : arg.getField "scenario" = some (Json.str s)) (hne : (s == "") = false) :
    invalidStringField arg "scenario" = false
  ∧ (∀ origin, sdk.resolveOrigin env = some origin → (origin == "") = false →
       (sdk.getScenarioCustomFields env transport arg).issued =
         [sdk.envelopeFor origin "GET" ("/get-scenario-custom-fields?scenario=" ++ s)
           (Json.obj [])])
  ∧ (∀ arg2, invalidStringField arg2 "scenario" = true →
       sdk.getScenarioCustomFields env transport arg2 =
         { result := .error (.validationError "Invalid scenario ID"), issued := [] }) := by
  have hval : invalidStringField arg "scenario" = false := by
    simp [invalidStringField, hs, optTruthy, optIsStr, Json.truthy, Json.isStr, hne]
  refine ⟨hval, ?_, ?_⟩
  · intro origin ho hone
    simp only [PeakmailsSDK.getScenarioCustomFields, hval, Bool.false_eq_true, if_false,
      hs, optJson, Json.asString]
    rw [request_of_resolve sdk env transport _ _ _ origin ho hone, settle_issued]
  · intro arg2 h2
    simp [PeakmailsSDK.getScenarioCustomFields, h2]

/-- Witness for C8: `getScenarioCustomFields({scenario:"s1"})` on the
backend client issues a GET of the scenario-custom-fields path with
`?scenario=s1`. -/
theorem getScenarioCustomFields_builds_query_witness :
    (sdkBackend.getScenarioCustomFields envNone (transportOk respContact) argScenario).issued =
      [sdkBackend.envelopeFor "backend-implementation" "GET"
        "/get-scenario-custom-fields?scenario=s1" (Json.obj [])] :=
  (getScenarioCustomFields_builds_query sdkBackend envNone (transportOk respContact)
    argScenario "s1" rfl rfl).2.1 "backend-implementation" rfl rfl

/-! ## Claim C9 — the unsigned variant signs nothing -/

/-- Claim C9: every request of the unsigned variant is issued with exactly
the bearer authorization, JSON content type and domain headers — no
projectId, origin or CSRF-token header exists — and its operations follow
the same validate-then-dispatch pattern (an invalid email is rejected with
the validation error and no request; a valid one dispatches). -/
theorem unsigned_request_plain_headers (sdk : IndexJs.PeakmailsSDK) (transport : Transport)
    (m e : String) (d : Json) (arg : Json) :
    ((sdk.request transport m e d).issued = [
        { method := m, url := sdk.baseUrl ++ e,
          headers := [("Authorization", "Bearer " ++ sdk.apiKey),
            ("Content-Type", "application/json"),
            ("X-Peakmails-Domain", sdk.domain)],
          data := d }])
  ∧ (∀ envl, (sdk.request transport m e d).issued = [envl] →
       envl.headers.lookup "X-Peakmails-Project" = none
       ∧ envl.headers.lookup "X-Peakmails-Origin" = none
       ∧ envl.headers.lookup "X-Peakmails-CSRF-Token" = none)
  ∧ (invalidStringField arg "email" = true →
       sdk.addContact transport arg =
         { result := .error (.validationError "Invalid email address"), issued := [] })
  ∧ (invalidStringField arg "email" = false →
       (sdk.addContact transport arg).issued ≠ []) := by
  have hiss : ∀ (m2 e2 : String) (d2 : Json), (sdk.request transport m2 e2 d2).issued = [
      { method := m2, url := sdk.baseUrl ++ e2,
        headers := [("Authorization", "Bearer " ++ sdk.apiKey),
          ("Content-Type", "application/json"),
          ("X-Peakmails-Domain", sdk.domain)],
        data := d2 }] := fun m2 e2 d2 => settle_issued _ _
  refine ⟨hiss m e d, ?_, ?_, ?_⟩
  · intro envl h
    rw [hiss m e d] at h
    obtain ⟨h1, -⟩ := (List.cons.injEq _ _ _ _).mp h
    rw [← h1]
    exact ⟨rfl, rfl, rfl⟩
  · intro h; simp [IndexJs.PeakmailsSDK.addContact, h]
  · intro h
    simp only [IndexJs.PeakmailsSDK.addContact, h, Bool.false_eq_true, if_false]
    rw [hiss "POST" "/contacts" arg]
    exact List.cons_ne_nil _ _

/-- Witness for C9: the unsigned client rejects `addContact({})` with the
validation error and no request, and dispatches `addContact` for a valid
email. -/
theorem unsigned_request_plain_headers_witness :
    sdkUnsigned.addContact transportDown (Json.obj []) =
      { result := .error (.validationError "Invalid email address"), issued := [] }
  ∧ (sdkUnsigned.addContact transportDown argEmail).issued ≠ [] :=
  ⟨(unsigned_request_plain_headers sdkUnsigned transportDown "POST" "/contacts" Json.null
      (Json.obj [])).2.2.1 rfl,
   (unsigned_request_plain_headers sdkUnsigned transportDown "POST" "/contacts" Json.null
      argEmail).2.2.2 rfl⟩

/-! ## Claim C2 — token generation

Fidelity of the SHA-256 implementation is checked against the FIPS 180-4
test vectors first. -/

set_option maxRecDepth 10000

/-- FIPS 180-4 test vector: the digest of the empty message. -/
theorem sha256Hex_empty_vector :
    sha256Hex "" = "e3b0c44298fc1c149afbf4c8996fb92427ae41e4649b934ca495991b7852b855" := by
  decide

/-- FIPS 180-4 test vector: the digest of "abc". -/
theorem sha256Hex_abc_vector :
    sha256Hex "abc" = "ba7816bf8f01cfea414140de5dae2223b00361a396177a9cb410ff61f20015ad" := by
  decide

/-- Counterexample for C2 as stated: the hash input is the bare
concatenation of apiKey and origin, so the distinct pairs
`("a", "bc")` and `("ab", "c")` concatenate to the same string and yield
the identical digest — "for every two distinct (apiKey, origin) pairs the
digests differ" is false. -/
theorem generateCSRFToken_distinct_pairs_collide :
    (sdkKeyA.apiKey, "bc") ≠ (sdkKeyAB.apiKey, "c")
  ∧ sdkKeyA.generateCSRFToken "bc" = sdkKeyAB.generateCSRFToken "c" :=
  ⟨by decide, congrArg sha256Hex (by decide)⟩

/-- Claim C2 (amended): `generateCSRFToken` returns the hexadecimal
SHA-256 digest of the concatenation of the client's apiKey and the origin;
it is deterministic — any two calls whose concatenated inputs agree
(in particular, identical (apiKey, origin) pairs) yield the identical
digest — and for the sample inputs below, whose concatenations differ,
changing either the origin or the apiKey changes the digest. -/
theorem generateCSRFToken_of_concat (sdk sdk2 : PeakmailsSDK) (o o2 : String) :
    (sdk.generateCSRFToken o = sha256Hex (sdk.apiKey ++ o))
  ∧ (sdk.apiKey ++ o = sdk2.apiKey ++ o2 →
       sdk.generateCSRFToken o = sdk2.generateCSRFToken o2)
  ∧ (sdkBackend.generateCSRFToken "https://app.example"
       ≠ sdkBackend.generateCSRFToken "https://evil.example")
  ∧ (sdkBackend.generateCSRFToken "https://app.example"
       ≠ sdkKey2.generateCSRFToken "https://app.example") := by
  refine ⟨rfl, ?_, ?_, ?_⟩
  · intro h
    unfold PeakmailsSDK.generateCSRFToken
    rw [h]
  · decide
  · decide

/-- Witness for C2: two clients whose apiKey/origin pairs concatenate to
the same string receive the identical token. -/
theorem generateCSRFToken_of_concat_witness :
    sdkKeyA.generateCSRFToken "bc" = sdkKeyAB.generateCSRFToken "c" :=
  (generateCSRFToken_of_concat sdkKeyA sdkKeyAB "bc" "c").2.1 (by decide)

end Peakmails
